import Mathlib

/-
Verification of the authentication subsystem of nodejs-demoapp.

The development shallowly embeds the two login flows found in the source:

* the router-module flow of `src/routes/auth.mjs` (`router.get('/login')`,
  `router.get('/signin')`, `router.get('/logout')`, `router.get('/account')`
  and the `ensureAuthenticated` middleware), and
* the inline flow of the entry point (`app.get('/login')`, `app.get('/signin')`
  and its own `ensureAuthenticated`).

Express session objects become the `Session` structure below; each request
handler becomes a pure function from the incoming session (plus the request
query and the outcome of each external call it performs) to the outgoing
session and response.  External calls — `msalApp.acquireTokenByCode` (the
identity provider's token endpoint) and `msalApp.getAuthCodeUrl` — are passed
in as function/`Except` parameters, and the `tokenCalls` field of `StepResult`
records every request actually sent to the token endpoint, so that claims
about contacting (or not contacting) the provider are expressible.
-/

namespace DemoApp

/-- The account sub-record stored by the signin callback: the five fields the
code copies out of `tokenResponse.account` (auth.mjs lines 136-142). -/
structure Account where
  name : String
  username : String
  tenantId : String
  environment : String
  homeAccountId : String
deriving DecidableEq

/-- The `req.session.user` object written by the router-module signin callback:
`{ account, accessToken }` (auth.mjs lines 135-144). -/
structure User where
  account : Account
  accessToken : String
deriving DecidableEq

/-- The `req.session.pkceCodes` object of the router-module login route.  It is
created as `{ challengeMethod: 'S256' }` and the `verifier`/`challenge` fields
are assigned afterwards (auth.mjs lines 74-82), so the latter two are
optional. -/
structure PkceCodes where
  challengeMethod : String
  verifier : Option String := none
  challenge : Option String := none
deriving DecidableEq

/-- An express session record.  Both flows write into the same `req.session`
object, so one structure carries the fields of both: `pkceCodes`/`user` belong
to the router-module flow (auth.mjs), `codeVerifier`/`accessToken` to the
inline entry-point flow.  A fresh session has every field absent. -/
structure Session where
  pkceCodes : Option PkceCodes := none
  user : Option User := none
  codeVerifier : Option String := none
  accessToken : Option String := none
deriving DecidableEq

/-- The fresh session express-session hands a request that presents no known
session cookie (also what a request sees after `req.session.destroy`). -/
def Session.empty : Session := {}

/-- The query parameters of a callback request to the signin endpoint: the
provider sends `code` and `state`; `client_info` may also be present. -/
structure Query where
  code : Option String := none
  state : Option String := none
  clientInfo : Option String := none
deriving DecidableEq

/-- The request object handed to `msalApp.acquireTokenByCode`
(auth.mjs lines 119-125). -/
structure TokenRequest where
  code : Option String
  redirectUri : String
  codeVerifier : Option String
  clientInfo : Option String
deriving DecidableEq

/-- A successful answer of the token endpoint: the fields the code reads off
`tokenResponse`. -/
structure TokenResponse where
  account : Account
  accessToken : String
deriving DecidableEq

/-- Failures of the token endpoint as classified by the spec; `other` covers
every remaining rejection the msal library can surface. -/
inductive AuthError where
  | invalidGrant
  | networkError
  | other (msg : String)
deriving DecidableEq

/-- The identity provider's token endpoint, abstracted as a function from the
request the handler builds to the provider's answer. -/
abbrev Idp := TokenRequest → Except AuthError TokenResponse

/-- The response a route handler produces. -/
inductive Response where
  | redirect (url : String)
  | renderError (err : AuthError)
  | renderAccount (details : String) (photo : Option String)
  | serverError (body : String)
  | unhandledRejection
deriving DecidableEq

/-- What a middleware does with a request: pass it on or redirect. -/
inductive AuthDecision where
  | next
  | redirect (url : String)
deriving DecidableEq

/-- Result of running one route handler: the session as the next request will
see it, the HTTP response, every request sent to the token endpoint during the
handler, and whether `req.session.destroy` was signalled to the store. -/
structure StepResult where
  session : Session
  response : Response
  tokenCalls : List TokenRequest := []
  destroyed : Bool := false
deriving DecidableEq

/-- `router.get('/login')` of auth.mjs (lines 63-108): generate a PKCE pair
(given here as `verifier`/`challenge`), create `req.session.pkceCodes` with
`challengeMethod: 'S256'` if absent, overwrite its `verifier` and `challenge`,
then ask msal for the authorization URL and redirect to it; if that call fails
the catch block renders the error page.  The session keeps the freshly written
PKCE codes on both paths, because they are assigned before the call. -/
def routerLogin (s : Session) (verifier challenge : String)
    (authCodeUrl : Except String String) : StepResult :=
  let pk : PkceCodes :=
    match s.pkceCodes with
    | none => { challengeMethod := "S256", verifier := some verifier, challenge := some challenge }
    | some old => { old with verifier := some verifier, challenge := some challenge }
  let s1 : Session := { s with pkceCodes := some pk }
  match authCodeUrl with
  | Except.ok url => { session := s1, response := Response.redirect url }
  | Except.error msg => { session := s1, response := Response.renderError (AuthError.other msg) }

/-- The token request `router.get('/signin')` builds (auth.mjs lines 119-125):
the query's `code`, the configured redirect URI, the stored PKCE verifier and
the query's `client_info`.  The query's `state` parameter is not part of it. -/
def mkTokenRequest (q : Query) (redirectUri : String) (verifier : Option String) : TokenRequest :=
  { code := q.code, redirectUri := redirectUri, codeVerifier := verifier, clientInfo := q.clientInfo }

/-- `router.get('/signin')` of auth.mjs (lines 112-162).  The handler reads
`req.session.pkceCodes.verifier` before the try block: when `pkceCodes` is
absent this is a TypeError inside an async handler, which express 4 does not
catch (an unhandled rejection, no token call).  Otherwise it sends exactly one
request to the token endpoint; on success it stores
`req.session.user = { account: {...}, accessToken }` and redirects to
`/account`; on failure the catch block renders the error page.  Neither path
touches `pkceCodes`, and no path reads `req.query.state`. -/
def routerSignin (s : Session) (q : Query) (redirectUri : String) (idp : Idp) : StepResult :=
  match s.pkceCodes with
  | none => { session := s, response := Response.unhandledRejection }
  | some pk =>
    let tokenRequest := mkTokenRequest q redirectUri pk.verifier
    match idp tokenRequest with
    | Except.ok tr =>
      { session := { s with user := some { account := tr.account, accessToken := tr.accessToken } },
        response := Response.redirect "/account",
        tokenCalls := [tokenRequest] }
    | Except.error e =>
      { session := s, response := Response.renderError e, tokenCalls := [tokenRequest] }

/-- `router.get('/logout')` of auth.mjs (lines 164-168): `req.session.destroy`
removes the record from the session store, then the browser is redirected to
`/`.  A later request presenting the old cookie finds no record and gets a
fresh empty session, which is what the `session` field carries. -/
def routerLogout (_s : Session) : StepResult :=
  { session := Session.empty, response := Response.redirect "/", destroyed := true }

/-- The `ensureAuthenticated` middleware of auth.mjs (lines 51-56): redirect to
`/login` unless `req.session?.user?.account` is present (every stored `user`
carries an `account`, so the test is whether `user` is present); otherwise call
`next()`.  It performs no session writes, so the session component of the
result is the input session. -/
def ensureAuthenticated (s : Session) : AuthDecision × Session :=
  if s.user.isSome then (AuthDecision.next, s) else (AuthDecision.redirect "/login", s)

/-- `getUserDetails` of graph.mjs (lines 9-27): with no access token it returns
null without any upstream call; with a token it performs the Graph request
(whose outcome is the `upstream` parameter) and returns the data, or null when
the request fails — it never throws. -/
def getUserDetails (accessToken : Option String) (upstream : Except String String) :
    Option String :=
  match accessToken with
  | none => none
  | some _ =>
    match upstream with
    | Except.ok data => some data
    | Except.error _ => none

/-- `getUserPhoto` of graph.mjs (lines 29-48), same shape as `getUserDetails`:
null when the token is absent or the upstream call fails, otherwise the photo
payload (the byte-to-base64 conversion is folded into the upstream payload
string).  It never throws. -/
def getUserPhoto (accessToken : Option String) (upstream : Except String String) :
    Option String :=
  match accessToken with
  | none => none
  | some _ =>
    match upstream with
    | Except.ok data => some data
    | Except.error _ => none

/-- `router.get('/account', ensureAuthenticated, handler)` of auth.mjs
(lines 171-198): the middleware redirects unauthenticated sessions to
`/login`; otherwise the handler calls the two Graph helpers with the session's
access token and always renders the account page, substituting `{}` for
missing details (`details || {}`) and passing the photo through. -/
def accountRoute (s : Session) (detailsUpstream photoUpstream : Except String String) :
    Response :=
  match s.user with
  | none => Response.redirect "/login"
  | some u =>
    let details := getUserDetails (some u.accessToken) detailsUpstream
    let photo := getUserPhoto (some u.accessToken) photoUpstream
    Response.renderAccount (details.getD "{}") photo

/-- The redirect URI hard-coded in the inline entry-point flow. -/
def inlineRedirectUri : String :=
  "https://nodejs-demoapp.lemonrock-97154e27.canadacentral.azurecontainerapps.io/signin"

/-- `app.get('/login')` of the inline entry-point flow (part_003 lines 75-95):
store a fresh code verifier in `req.session.codeVerifier`, then ask msal for
the authorization URL; redirect to it on success, answer 500 on failure.  The
verifier is stored before the call, so it survives both paths. -/
def inlineLogin (s : Session) (codeVerifier : String)
    (authCodeUrl : Except String String) : StepResult :=
  let s1 : Session := { s with codeVerifier := some codeVerifier }
  match authCodeUrl with
  | Except.ok url => { session := s1, response := Response.redirect url }
  | Except.error _ =>
    { session := s1, response := Response.serverError "Authentication initialization failed" }

/-- `app.get('/signin')` of the inline entry-point flow (part_003 lines
97-115): build the token request from the query's `code`, the hard-coded
redirect URI and `req.session.codeVerifier` (simply `undefined` when absent —
no throw here), send it, and on success store
`req.session.accessToken = response.accessToken` and redirect to `/`; on
failure redirect back to `/login`.  The query's `state` is never read and the
stored verifier is never erased. -/
def inlineSignin (s : Session) (q : Query) (idp : Idp) : StepResult :=
  let tokenRequest : TokenRequest :=
    { code := q.code, redirectUri := inlineRedirectUri,
      codeVerifier := s.codeVerifier, clientInfo := none }
  match idp tokenRequest with
  | Except.ok tr =>
    { session := { s with accessToken := some tr.accessToken },
      response := Response.redirect "/", tokenCalls := [tokenRequest] }
  | Except.error _ =>
    { session := s, response := Response.redirect "/login", tokenCalls := [tokenRequest] }

/-- The `ensureAuthenticated` middleware of the inline entry-point flow
(part_003 lines 117-122): pass the request on when `req.session.accessToken`
is present, redirect to `/login` otherwise.  No session writes. -/
def inlineEnsureAuthenticated (s : Session) : AuthDecision × Session :=
  if s.accessToken.isSome then (AuthDecision.next, s) else (AuthDecision.redirect "/login", s)

/-- The paths the auth router module registers (auth.mjs). -/
def authRouterPaths : List String :=
  ["/login", "/signin", "/logout", "/account", "/auth-status", "/debug-session"]

/-- The paths the page router registers (pages.mjs). -/
def pageRoutePaths : List String :=
  ["/", "/info", "/monitor", "/weather", "/tools", "/tools/load", "/tools/error",
   "/tools/gc", "/hello"]

/-- The registered GET paths of the entry-point variant with only the
conditional auth mount (part_002): its own `/` and `/health`, the page router,
the api router (a parameter, its file is outside this subsystem), the auth
router only when `ENTRA_APP_ID` is set, and the todo router only when
`TODO_MONGO_CONNSTR` is set. -/
def part002Registered (entraAppId : Option String) (apiPaths todoPaths : List String)
    (todoConn : Option String) : List String :=
  ["/", "/health"] ++ pageRoutePaths ++ apiPaths ++
    (if entraAppId.isSome then authRouterPaths else []) ++
    (if todoConn.isSome then todoPaths else [])

/-- The registered GET paths of the entry-point variant with the inline flow
(part_003): it registers `/login`, `/signin`, `/`, `/protected`, `/logout` and
`/health` unconditionally at module level, then the page and api routers, then
the auth router only when `ENTRA_APP_ID` is set, and the todo router only when
`TODO_MONGO_CONNSTR` is set. -/
def part003Registered (entraAppId : Option String) (apiPaths todoPaths : List String)
    (todoConn : Option String) : List String :=
  ["/login", "/signin", "/", "/protected", "/logout", "/health"] ++
    pageRoutePaths ++ apiPaths ++
    (if entraAppId.isSome then authRouterPaths else []) ++
    (if todoConn.isSome then todoPaths else [])

/-- Sessions reachable from a fresh session through the router-module flow:
any interleaving of the `/login`, `/signin` and `/logout` handlers with
arbitrary inputs and provider behaviour. -/
inductive Reach : Session → Prop where
  | init : Reach Session.empty
  | login (s : Session) (v c : String) (u : Except String String) :
      Reach s → Reach (routerLogin s v c u).session
  | signin (s : Session) (q : Query) (uri : String) (idp : Idp) :
      Reach s → Reach (routerSignin s q uri idp).session
  | logout (s : Session) : Reach s → Reach (routerLogout s).session

/-- The spec's session invariant, as a decidable predicate: exactly one of
{pkce pair present, identity-plus-token present}. -/
def exactlyOnePresent (s : Session) : Bool :=
  (s.pkceCodes.isSome && s.user.isNone) || (s.pkceCodes.isNone && s.user.isSome)

/-- A concrete account, for test runs. -/
def testAccount : Account :=
  { name := "Test User", username := "test@example.com", tenantId := "tenant-1",
    environment := "login.microsoftonline.com", homeAccountId := "home-1" }

/-- A concrete successful token-endpoint answer. -/
def testTokenResponse : TokenResponse := { account := testAccount, accessToken := "tok123" }

/-- The `user` object the router-module callback stores for
`testTokenResponse`. -/
def testUser : User := { account := testAccount, accessToken := "tok123" }

/-- A provider that accepts every token request (the authorization code is
valid). -/
def idpAcceptAll : Idp := fun _ => Except.ok testTokenResponse

/-- A provider that rejects every token request as invalid_grant (e.g. the
code was already redeemed). -/
def idpRejectAll : Idp := fun _ => Except.error AuthError.invalidGrant

/-- A callback query with a valid code and the expected correlation value. -/
def q0 : Query := { code := some "ABC", state := some "S1", clientInfo := none }

/-- A callback query with the same valid code but a non-matching `state`. -/
def qEvil : Query := { code := some "ABC", state := some "WRONG", clientInfo := none }

/-- The configured redirect URI used in the concrete runs. -/
def testRedirectUri : String := "https://app.example.com/signin"

/-- The session after `router.get('/login')` succeeded on a fresh session:
PKCE codes stored, nothing else. -/
def pendingSession : Session :=
  (routerLogin Session.empty "ver123" "chal123" (Except.ok "https://idp/authorize")).session

/-- The session after the full router-module flow succeeded:
`/login` then `/signin` with a valid code. -/
def authedSession : Session :=
  (routerSignin pendingSession q0 testRedirectUri idpAcceptAll).session

/-- The session after the inline `/login` stored its verifier on a fresh
session. -/
def inlinePendingSession : Session :=
  (inlineLogin Session.empty "iv123" (Except.ok "https://idp/authorize")).session

/-- The session after the full inline flow succeeded. -/
def inlineAuthedSession : Session :=
  (inlineSignin inlinePendingSession q0 idpAcceptAll).session

/-
Claim theorems.
-/

/-- Claim C1, counterexample.  A session in the pending state receives a
callback whose `state` (`"WRONG"`) differs from the correlation value under
which the flow was started (`"S1"`), with a code the provider accepts.  The
claim says such a callback forces Anonymous and never transitions to
Authenticated; in fact the handler stores the user and redirects to
`/account`, i.e. the session becomes Authenticated. -/
theorem C1_counterexample :
    ((routerSignin pendingSession qEvil testRedirectUri idpAcceptAll).session.user).isSome
      = true ∧
    (routerSignin pendingSession qEvil testRedirectUri idpAcceptAll).response
      = Response.redirect "/account" := by
  constructor <;> rfl

/-- Claim C1, amended: the signin callback performs no `state` verification at
all — it never reads the `state` query parameter, so its entire outcome
(session, response and token calls) is independent of `state`; in particular a
valid code authenticates the session regardless of any mismatch. -/
theorem C1_state_ignored :
    ∀ (s : Session) (uri : String) (idp : Idp) (c st st' ci : Option String),
      routerSignin s { code := c, state := st, clientInfo := ci } uri idp =
        routerSignin s { code := c, state := st', clientInfo := ci } uri idp := by
  intro s uri idp c st st' ci
  rfl

/-- Claim C2, counterexample.  `authedSession` is the session right after the
first successful signin callback (its PKCE codes were never erased).  Invoking
the callback a second time with the same code sends a request to the token
endpoint again — `tokenCalls` is nonempty — contradicting the claim that the
second invocation does not re-contact the provider. -/
theorem C2_counterexample :
    (routerSignin authedSession q0 testRedirectUri idpRejectAll).tokenCalls ≠ [] := by
  intro h
  simp [routerSignin, authedSession, pendingSession, routerLogin, idpRejectAll,
    idpAcceptAll, mkTokenRequest, Session.empty] at h

/-- Claim C2, amended: because the verifier is never erased, a second
invocation with the same code re-sends the token request (carrying the stored
verifier) to the provider; when the provider rejects the reused code as
invalid_grant, the catch block renders the error page, the session is left
entirely unchanged (the user stays authenticated), and no crash occurs. -/
theorem C2_duplicate_code (s : Session) (pk : PkceCodes) (q : Query) (uri : String)
    (idp : Idp)
    (hpk : s.pkceCodes = some pk)
    (hu : s.user.isSome = true)
    (hidp : idp (mkTokenRequest q uri pk.verifier) = Except.error AuthError.invalidGrant) :
    (routerSignin s q uri idp).tokenCalls = [mkTokenRequest q uri pk.verifier] ∧
    (routerSignin s q uri idp).response = Response.renderError AuthError.invalidGrant ∧
    (routerSignin s q uri idp).session = s ∧
    (routerSignin s q uri idp).session.user.isSome = true := by
  simp [routerSignin, hpk, hidp, hu]

/-- Witness for C2_duplicate_code at the concrete duplicate-callback run. -/
theorem C2_duplicate_code_witness :
    (routerSignin authedSession q0 testRedirectUri idpRejectAll).tokenCalls
      = [mkTokenRequest q0 testRedirectUri (some "ver123")] ∧
    (routerSignin authedSession q0 testRedirectUri idpRejectAll).response
      = Response.renderError AuthError.invalidGrant ∧
    (routerSignin authedSession q0 testRedirectUri idpRejectAll).session = authedSession ∧
    (routerSignin authedSession q0 testRedirectUri idpRejectAll).session.user.isSome = true :=
  C2_duplicate_code authedSession
    { challengeMethod := "S256", verifier := some "ver123", challenge := some "chal123" }
    q0 testRedirectUri idpRejectAll rfl rfl rfl

/-- Claim C3, counterexample.  Running `/login` then `/signin` with a valid
code on a fresh session ends Authenticated, but the PKCE codes are NOT
cleared: they are still present in the final session, contradicting the
claim's "pkce verifier/challenge cleared". -/
theorem C3_counterexample :
    (StepResult.session (routerSignin (routerLogin Session.empty "ver123" "chal123"
        (Except.ok "https://idp/authorize")).session q0 testRedirectUri idpAcceptAll)).user.isSome
      = true ∧
    (StepResult.session (routerSignin (routerLogin Session.empty "ver123" "chal123"
        (Except.ok "https://idp/authorize")).session q0 testRedirectUri idpAcceptAll)).pkceCodes
      = some { challengeMethod := "S256", verifier := some "ver123",
               challenge := some "chal123" } := by
  constructor <;> rfl

/-- Claim C3, amended: a session that completes `/login` followed by `/signin`
with a code the provider accepts ends with `user` (identity plus access token)
populated from the token response and is redirected to `/account`, but the
PKCE verifier remains stored in the session — it is not cleared. -/
theorem C3_login_signin (s0 : Session) (v c url uri : String) (q : Query)
    (tr : TokenResponse) (idp : Idp)
    (hidp : idp (mkTokenRequest q uri (some v)) = Except.ok tr) :
    ((routerSignin (routerLogin s0 v c (Except.ok url)).session q uri idp).session.user
      = some { account := tr.account, accessToken := tr.accessToken }) ∧
    (((routerSignin (routerLogin s0 v c (Except.ok url)).session q uri idp).session.pkceCodes).map
        PkceCodes.verifier = some (some v)) ∧
    (routerSignin (routerLogin s0 v c (Except.ok url)).session q uri idp).response
      = Response.redirect "/account" := by
  cases hpk : s0.pkceCodes <;>
    simp [routerLogin, routerSignin, hpk, hidp]

/-- Witness for C3_login_signin at the concrete successful run. -/
theorem C3_login_signin_witness :
    (authedSession.user = some { account := testAccount, accessToken := "tok123" }) ∧
    ((authedSession.pkceCodes).map PkceCodes.verifier = some (some "ver123")) ∧
    (routerSignin pendingSession q0 testRedirectUri idpAcceptAll).response
      = Response.redirect "/account" :=
  C3_login_signin Session.empty "ver123" "chal123" "https://idp/authorize" testRedirectUri
    q0 testTokenResponse idpAcceptAll rfl

/-- Claim C4, counterexample.  A failing token exchange is an error path on the
signin callback, yet it returns with the session's PKCE verifier fully intact,
contradicting the claim that every error path erases the verifier before
returning. -/
theorem C4_counterexample :
    (routerSignin pendingSession q0 testRedirectUri idpRejectAll).response
      = Response.renderError AuthError.invalidGrant ∧
    (routerSignin pendingSession q0 testRedirectUri idpRejectAll).session.pkceCodes
      = some { challengeMethod := "S256", verifier := some "ver123",
               challenge := some "chal123" } := by
  constructor <;> rfl

/-- Claim C5, counterexample.  The session reached by `/login` followed by a
successful `/signin` has BOTH the PKCE pair and the identity-plus-token
present, violating the claimed exactly-one-of invariant on a session reachable
by the very operations the claim says preserve it. -/
theorem C5_counterexample :
    Reach authedSession ∧ exactlyOnePresent authedSession = false :=
  ⟨Reach.signin pendingSession q0 testRedirectUri idpAcceptAll
      (Reach.login Session.empty "ver123" "chal123" (Except.ok "https://idp/authorize")
        Reach.init),
    rfl⟩

/-- Claim C5, amended: the exactly-one-of invariant does not hold (a fresh
session has neither, and after a completed login both are present, since the
callback never clears `pkceCodes`).  What the reachable sessions of the
router-module flow do satisfy is: whenever the identity-plus-token is present,
the PKCE pair is present as well. -/
theorem C5_reachable_invariant (s : Session) (h : Reach s)
    (hu : s.user.isSome = true) : s.pkceCodes.isSome = true := by
  induction h with
  | init => simp [Session.empty] at hu
  | login s v c u _ _ =>
    cases hpk : s.pkceCodes <;> cases u <;> simp [routerLogin, hpk]
  | signin s q uri idp _ ih =>
    cases hpk : s.pkceCodes with
    | none =>
      simp only [routerSignin, hpk] at hu ⊢
      exact hpk ▸ ih hu
    | some pk =>
      cases hi : idp (mkTokenRequest q uri pk.verifier) <;>
        simp only [routerSignin, hpk, hi] at hu ⊢ <;> simp
  | logout s _ _ =>
    simp [routerLogout, Session.empty] at hu

/-- Witness for C5_reachable_invariant at the concrete authenticated run. -/
theorem C5_reachable_invariant_witness : authedSession.pkceCodes.isSome = true :=
  C5_reachable_invariant authedSession
    (Reach.signin pendingSession q0 testRedirectUri idpAcceptAll
      (Reach.login Session.empty "ver123" "chal123" (Except.ok "https://idp/authorize")
        Reach.init))
    rfl

/-- Claim C4, amended: no path of the signin callback — success, token-exchange
failure, or the missing-pkce unhandled rejection — ever modifies the session's
`pkceCodes`; in particular every error path leaves the verifier stored and
usable. -/
theorem C4_pkce_never_erased :
    ∀ (s : Session) (q : Query) (uri : String) (idp : Idp),
      (routerSignin s q uri idp).session.pkceCodes = s.pkceCodes := by
  intro s q uri idp
  cases hpk : s.pkceCodes with
  | none => simp [routerSignin, hpk]
  | some pk =>
    cases hi : idp (mkTokenRequest q uri pk.verifier) <;>
      simp [routerSignin, hpk, hi]

/-- Claim C6, counterexample.  With `ENTRA_APP_ID` absent, the entry-point
variant carrying the inline flow still registers `/login`, `/signin` and
`/logout` (they are registered unconditionally at module level), so the
authentication routes are not all disabled. -/
theorem C6_counterexample :
    "/login" ∈ part003Registered none [] [] none ∧
    "/signin" ∈ part003Registered none [] [] none ∧
    "/logout" ∈ part003Registered none [] [] none := by
  refine ⟨?_, ?_, ?_⟩ <;> simp [part003Registered, pageRoutePaths]

/-- Claim C6, amended: when the client identifier is absent, the auth router
module (and with it `/login`, `/signin`, `/logout`, `/account` and the helper
routes) is not mounted in the conditional-mount entry-point variant — no auth
router path is registered there, provided the out-of-subsystem api/todo
routers do not themselves define it; but the inline entry-point variant still
registers its own `/login`, `/signin` and `/logout` unconditionally, so only
`/account` and the helper routes are disabled in that variant. -/
theorem C6_entra_absent (apiPaths todoPaths : List String) (todoConn : Option String)
    (p : String) (hp : p ∈ authRouterPaths)
    (hApi : p ∉ apiPaths) (hTodo : p ∉ todoPaths)
    (hApiAcc : "/account" ∉ apiPaths) (hTodoAcc : "/account" ∉ todoPaths) :
    p ∉ part002Registered none apiPaths todoPaths todoConn ∧
    "/login" ∈ part003Registered none apiPaths todoPaths todoConn ∧
    "/signin" ∈ part003Registered none apiPaths todoPaths todoConn ∧
    "/logout" ∈ part003Registered none apiPaths todoPaths todoConn ∧
    "/account" ∉ part003Registered none apiPaths todoPaths todoConn := by
  refine ⟨?_, ?_, ?_, ?_, ?_⟩
  · intro hmem
    simp only [authRouterPaths, List.mem_cons, List.not_mem_nil, or_false] at hp
    cases todoConn <;>
      simp only [part002Registered, pageRoutePaths, Option.isSome_none, Option.isSome_some,
        if_false, if_true, Bool.false_eq_true, Bool.true_eq_false, ite_false, ite_true,
        List.append_nil, List.mem_append, List.mem_cons, List.not_mem_nil, or_false] at hmem <;>
      rcases hp with h | h | h | h | h | h <;> subst h <;> simp_all
  · simp [part003Registered]
  · simp [part003Registered]
  · simp [part003Registered]
  · intro hmem
    cases todoConn <;>
      simp only [part003Registered, pageRoutePaths, Option.isSome_none, Option.isSome_some,
        if_false, if_true, Bool.false_eq_true, Bool.true_eq_false, ite_false, ite_true,
        List.append_nil, List.mem_append, List.mem_cons, List.not_mem_nil, or_false] at hmem <;>
      simp_all

/-- Witness for C6_entra_absent at `/login` with empty api/todo routers. -/
theorem C6_entra_absent_witness :
    "/login" ∉ part002Registered none [] [] none ∧
    "/login" ∈ part003Registered none [] [] none ∧
    "/signin" ∈ part003Registered none [] [] none ∧
    "/logout" ∈ part003Registered none [] [] none ∧
    "/account" ∉ part003Registered none [] [] none :=
  C6_entra_absent [] [] none "/login" (by simp [authRouterPaths])
    (List.not_mem_nil "/login") (List.not_mem_nil "/login")
    (List.not_mem_nil "/account") (List.not_mem_nil "/account")

/-- Claim C7, confirmed: from a session in any state, the `/logout` handler
signals the store to destroy the record and a subsequent request presenting
the old cookie sees only a fresh empty session, which the access-control
middleware of the protected `/account` route redirects to `/login` — it never
passes through, and the account handler renders no authenticated content. -/
theorem C7_logout_destroys (s : Session) (du pu : Except String String) :
    (routerLogout s).destroyed = true ∧
    (routerLogout s).session = Session.empty ∧
    (ensureAuthenticated (routerLogout s).session).1 = AuthDecision.redirect "/login" ∧
    (ensureAuthenticated (routerLogout s).session).1 ≠ AuthDecision.next ∧
    accountRoute (routerLogout s).session du pu = Response.redirect "/login" := by
  refine ⟨rfl, rfl, rfl, ?_, rfl⟩
  intro h
  simp [routerLogout, ensureAuthenticated, Session.empty] at h

/-- Claim C8, counterexample.  The session produced by the router-module flow
(`user` stored, no top-level `accessToken`) is accepted as authenticated by
the router-module middleware but rejected by the inline middleware, so the two
implementations do not accept the same sessions. -/
theorem C8_counterexample :
    (ensureAuthenticated authedSession).1 = AuthDecision.next ∧
    (inlineEnsureAuthenticated authedSession).1 = AuthDecision.redirect "/login" := by
  constructor <;> rfl

/-- Claim C8, amended: the two flows are not behaviorally equivalent.  The
router-module flow stores its result in `session.user` and its middleware
accepts exactly the sessions with `user` present; the inline flow stores a
bare `session.accessToken` and its middleware accepts exactly the sessions
with that field present.  A session authenticated by either flow is rejected
by the other flow's middleware. -/
theorem C8_flows_divergent :
    (∀ s : Session, (ensureAuthenticated s).1 = AuthDecision.next ↔ s.user.isSome = true) ∧
    (∀ s : Session,
      (inlineEnsureAuthenticated s).1 = AuthDecision.next ↔ s.accessToken.isSome = true) ∧
    authedSession.user.isSome = true ∧
    authedSession.accessToken = none ∧
    inlineAuthedSession.accessToken.isSome = true ∧
    inlineAuthedSession.user = none ∧
    (inlineEnsureAuthenticated authedSession).1 = AuthDecision.redirect "/login" ∧
    (ensureAuthenticated inlineAuthedSession).1 = AuthDecision.redirect "/login" := by
  refine ⟨?_, ?_, rfl, rfl, rfl, rfl, rfl, rfl⟩
  · intro s
    cases hs : s.user <;> simp [ensureAuthenticated, hs]
  · intro s
    cases hs : s.accessToken <;> simp [inlineEnsureAuthenticated, hs]

/-- Claim C9, confirmed: both access-control middlewares return the session
exactly as received (they only read it), pass the request through exactly when
the session is authenticated by their own criterion, and otherwise redirect to
`/login`. -/
theorem C9_middleware_frame (s : Session) :
    (ensureAuthenticated s).2 = s ∧
    (inlineEnsureAuthenticated s).2 = s ∧
    ((ensureAuthenticated s).1 = AuthDecision.next ↔ s.user.isSome = true) ∧
    ((ensureAuthenticated s).1 = AuthDecision.next ∨
      (ensureAuthenticated s).1 = AuthDecision.redirect "/login") ∧
    ((inlineEnsureAuthenticated s).1 = AuthDecision.next ↔ s.accessToken.isSome = true) ∧
    ((inlineEnsureAuthenticated s).1 = AuthDecision.next ∨
      (inlineEnsureAuthenticated s).1 = AuthDecision.redirect "/login") := by
  cases hu : s.user <;> cases ht : s.accessToken <;>
    simp [ensureAuthenticated, inlineEnsureAuthenticated, hu, ht]

/-- Claim C10, confirmed: both Graph helpers answer `none` (null) instead of
throwing when the access token is absent or the upstream HTTP call fails — as
total functions they always return — and the `/account` handler of an
authenticated session always renders the account page, whatever the Graph
results are. -/
theorem C10_graph_null (t : Option String) (d p : Except String String)
    (e1 e2 : String) (u : User) (s : Session) (hs : s.user = some u) :
    getUserDetails none d = none ∧
    getUserPhoto none p = none ∧
    getUserDetails t (Except.error e1) = none ∧
    getUserPhoto t (Except.error e2) = none ∧
    accountRoute s d p =
      Response.renderAccount ((getUserDetails (some u.accessToken) d).getD "{}")
        (getUserPhoto (some u.accessToken) p) := by
  refine ⟨rfl, rfl, ?_, ?_, ?_⟩
  · cases t <;> rfl
  · cases t <;> rfl
  · simp [accountRoute, hs]

/-- Witness for C10_graph_null: the authenticated session with both Graph
calls failing still renders the account page. -/
theorem C10_graph_null_witness :
    getUserDetails none (Except.error "down") = none ∧
    getUserPhoto none (Except.error "down2") = none ∧
    getUserDetails (some "tok123") (Except.error "boom") = none ∧
    getUserPhoto (some "tok123") (Except.error "boom2") = none ∧
    accountRoute authedSession (Except.error "down") (Except.error "down2") =
      Response.renderAccount
        ((getUserDetails (some testUser.accessToken) (Except.error "down")).getD "{}")
        (getUserPhoto (some testUser.accessToken) (Except.error "down2")) :=
  C10_graph_null (some "tok123") (Except.error "down") (Except.error "down2")
    "boom" "boom2" testUser authedSession rfl

end DemoApp
